import Mathlib

/-!
Shallow embedding of the gameplay core of nightblade-runner
(src/utils/constants.py, src/entities/player.py, src/entities/enemy.py,
src/scenes/game_scene.py, src/utils/helpers.py), together with theorems
settling the frozen specification claims.

Real-valued quantities (positions, velocities, timers) are modelled with ℚ.
`dt` is the frame delta produced by the main loop (wall-clock ms / 16.67,
capped at 2.0), so "X ms-equivalent of elapsed update time" means the
accumulated `dt * 1000` over the updates in question, matching the
`dt * 1000` millisecond conversions used throughout the source.
-/

namespace Nightblade

/-! ### Constants (src/utils/constants.py) -/

def WINDOW_WIDTH : ℚ := 1024
def WINDOW_HEIGHT : ℚ := 768

def PLAYER_WIDTH : ℤ := 96
def PLAYER_HEIGHT : ℤ := 96
def PLAYER_SPEED : ℚ := 5
def PLAYER_JUMP_STRENGTH : ℚ := -15
def PLAYER_GRAVITY : ℚ := 4/5          -- 0.8
def PLAYER_GROUND_Y : ℚ := WINDOW_HEIGHT - 96 - 50

def ENEMY_WIDTH : ℤ := 96
def ENEMY_HEIGHT : ℤ := 96
def ENEMY_BASE_SPEED : ℚ := 1

def ATTACK_RANGE : ℤ := 10
def ATTACK_COOLDOWN : ℚ := 800
def PLAYER_HEALTH : ℤ := 100

/-- RGB colors; only identity matters for the particle-event claims. -/
abbrev Color := ℤ × ℤ × ℤ

def RED : Color := (255, 0, 0)
def GREEN : Color := (0, 255, 0)
def WHITE : Color := (255, 255, 255)

/-! ### Rectangles (pygame.Rect as used for collision detection) -/

/-- An axis-aligned integer rectangle, like pygame.Rect. -/
structure Rect where
  x : ℤ
  y : ℤ
  w : ℤ
  h : ℤ
  deriving Repr, DecidableEq

/-- pygame's Rect.colliderect: strict overlap on both axes
(rectangles merely sharing an edge do not collide). -/
def collideRect (a b : Rect) : Bool :=
  decide (a.x < b.x + b.w) && decide (a.x + a.w > b.x) &&
  decide (a.y < b.y + b.h) && decide (a.y + a.h > b.y)

/-- Python's int() applied to a float: truncation toward zero. -/
def pyInt (q : ℚ) : ℤ :=
  if q < 0 then -(⌊-q⌋) else ⌊q⌋

/-! ### Input snapshot (the pygame key states the gameplay core reads) -/

structure Keys where
  left : Bool
  right : Bool
  a : Bool
  d : Bool
  up : Bool
  w : Bool
  lshift : Bool
  rshift : Bool
  space : Bool
  xkey : Bool
  deriving Repr, DecidableEq

/-! ### Player (src/entities/player.py) -/

structure Player where
  x : ℚ
  y : ℚ
  velocity_x : ℚ
  velocity_y : ℚ
  on_ground : Bool
  state : String
  facing_right : Bool
  health : ℤ
  max_health : ℤ
  attack_cooldown : ℚ
  dash_cooldown : ℚ
  dash_time : ℚ
  is_dashing : Bool
  rect : Rect
  animation_frame : ℚ
  deriving Repr, DecidableEq

/-- `self.dash_speed = PLAYER_SPEED * 2.5`: a per-instance field in the
source, but always initialized to this same value. -/
def dash_speed : ℚ := PLAYER_SPEED * (5/2)

/-- Player.__init__ (sprite loading omitted: presentation only). -/
def Player.init (x y : ℚ) : Player :=
  { x := x, y := y, velocity_x := 0, velocity_y := 0, on_ground := false
  , state := "idle", facing_right := true
  , health := PLAYER_HEALTH, max_health := PLAYER_HEALTH, attack_cooldown := 0
  , dash_cooldown := 0, dash_time := 0, is_dashing := false
  , rect := { x := pyInt x, y := pyInt y, w := PLAYER_WIDTH, h := PLAYER_HEIGHT }
  , animation_frame := 0 }

/-- Player.start_dash. -/
def Player.start_dash (p : Player) : Player :=
  { p with is_dashing := true, dash_time := 200, dash_cooldown := 1000 }

/-- First half of the dash-timer block at the top of Player.update. -/
def Player.tickDashCooldown (p : Player) (dt : ℚ) : Player :=
  if p.dash_cooldown > 0
  then { p with dash_cooldown := p.dash_cooldown - dt * 1000 } else p

/-- Second half of the dash-timer block: run down the active dash and end
it (zeroing the horizontal velocity) when its time is up. -/
def Player.tickDash (p : Player) (dt : ℚ) : Player :=
  if p.is_dashing then
    let t := p.dash_time - dt * 1000
    if t ≤ 0 then { p with dash_time := t, is_dashing := false, velocity_x := 0 }
    else { p with dash_time := t }
  else p

/-- The dash-timer block at the top of Player.update. -/
def Player.updateDashTimers (p : Player) (dt : ℚ) : Player :=
  (p.tickDashCooldown dt).tickDash dt

/-- The dash-input block of Player.update. -/
def Player.handleDashInput (p : Player) (keys : Keys) : Player :=
  if (keys.lshift || keys.rshift) && decide (p.dash_cooldown ≤ 0) && !p.is_dashing
  then p.start_dash else p

/-- The dashing movement path of Player.update (ends in an early return,
skipping all of the normal-movement path). -/
def Player.dashMove (p : Player) (dt : ℚ) : Player :=
  let p := { p with velocity_x := if p.facing_right then dash_speed else -dash_speed
                  , velocity_y := 0 }
  let p := { p with x := p.x + p.velocity_x * dt }
  let p := { p with x := max 0 (min p.x (WINDOW_WIDTH - (PLAYER_WIDTH : ℚ))) }
  { p with rect := { p.rect with x := pyInt p.x, y := pyInt p.y } }

/-- Normal path, "Reset horizontal velocity" + "Handle horizontal
movement". -/
def Player.moveInput (p : Player) (keys : Keys) : Player :=
  let p := { p with velocity_x := 0 }
  if keys.left || keys.a then
    { p with velocity_x := -PLAYER_SPEED, facing_right := false,
             state := if p.on_ground then "run" else p.state }
  else if keys.right || keys.d then
    { p with velocity_x := PLAYER_SPEED, facing_right := true,
             state := if p.on_ground then "run" else p.state }
  else
    if p.on_ground then { p with state := "idle" } else p

/-- Normal path, "Handle jumping". -/
def Player.jumpInput (p : Player) (keys : Keys) : Player :=
  if (keys.up || keys.w) && p.on_ground then
    { p with velocity_y := PLAYER_JUMP_STRENGTH, on_ground := false, state := "jump" }
  else p

/-- Normal path, "Apply gravity". -/
def Player.applyGravity (p : Player) : Player :=
  if !p.on_ground then
    { p with velocity_y := p.velocity_y + PLAYER_GRAVITY, state := "jump" }
  else p

/-- Normal path, "Update position". -/
def Player.integrate (p : Player) (dt : ℚ) : Player :=
  { p with x := p.x + p.velocity_x * dt, y := p.y + p.velocity_y * dt }

/-- Normal path, "Ground collision". -/
def Player.groundCollision (p : Player) : Player :=
  if p.y ≥ PLAYER_GROUND_Y then
    { p with y := PLAYER_GROUND_Y, velocity_y := 0, on_ground := true,
             state := if p.state = "jump" then "idle" else p.state }
  else p

/-- Normal path, "Keep player on screen horizontally". -/
def Player.clampX (p : Player) : Player :=
  { p with x := max 0 (min p.x (WINDOW_WIDTH - (PLAYER_WIDTH : ℚ))) }

/-- Normal path, "Update rectangle for collision detection". -/
def Player.updateRect (p : Player) : Player :=
  { p with rect := { p.rect with x := pyInt p.x, y := pyInt p.y } }

/-- Normal path, "Update attack cooldown". -/
def Player.tickAttackCooldown (p : Player) (dt : ℚ) : Player :=
  if p.attack_cooldown > 0 then
    { p with attack_cooldown := p.attack_cooldown - dt * 1000 }
  else p

/-- Normal path, "Update animation frame". -/
def Player.tickAnimation (p : Player) (dt : ℚ) : Player :=
  { p with animation_frame := p.animation_frame + dt * 10 }

/-- The normal movement path of Player.update, in source order. -/
def Player.normalMove (p : Player) (keys : Keys) (dt : ℚ) : Player :=
  ((((((((p.moveInput keys).jumpInput keys).applyGravity).integrate
    dt).groundCollision).clampX).updateRect).tickAttackCooldown dt).tickAnimation dt

/-- Player.update. -/
def Player.update (p : Player) (keys : Keys) (dt : ℚ) : Player :=
  let p := p.updateDashTimers dt
  let p := p.handleDashInput keys
  if p.is_dashing then p.dashMove dt else p.normalMove keys dt

/-- Player.attack: returns (performed?, new player state). -/
def Player.attack (p : Player) : Bool × Player :=
  if p.attack_cooldown ≤ 0 then (true, { p with attack_cooldown := ATTACK_COOLDOWN })
  else (false, p)

/-- Player.get_attack_rect. -/
def Player.get_attack_rect (p : Player) : Rect :=
  let attack_x := if p.facing_right then p.x + (PLAYER_WIDTH : ℚ)
                  else p.x - (ATTACK_RANGE : ℚ)
  { x := pyInt attack_x, y := pyInt p.y, w := ATTACK_RANGE, h := PLAYER_HEIGHT }

/-- Player.take_damage. -/
def Player.take_damage (p : Player) (amount : ℤ) : Player :=
  if p.is_dashing then p
  else
    let h := p.health - amount
    if h < 0 then { p with health := 0 } else { p with health := h }

/-- Player.is_alive. -/
def Player.is_alive (p : Player) : Bool := decide (p.health > 0)

/-! ### Enemy (src/entities/enemy.py) -/

structure Enemy where
  x : ℚ
  y : ℚ
  velocity_x : ℚ
  velocity_y : ℚ
  on_ground : Bool
  speed : ℚ
  state : String
  facing_right : Bool
  health : ℤ
  attack_cooldown : ℚ
  rect : Rect
  animation_frame : ℚ
  deriving Repr, DecidableEq

/-- `self.detection_range = 3000` (per-instance but constant). -/
def detection_range : ℚ := 3000

/-- Enemy.__init__ (sprite loading omitted). -/
def Enemy.init (x y speed : ℚ) : Enemy :=
  { x := x, y := y, velocity_x := 0, velocity_y := 0, on_ground := false
  , speed := speed, state := "idle", facing_right := true
  , health := 1, attack_cooldown := 0
  , rect := { x := pyInt x, y := pyInt y, w := ENEMY_WIDTH, h := ENEMY_HEIGHT }
  , animation_frame := 0 }

/-- Enemy.update. -/
def Enemy.update (e : Enemy) (player_pos : ℚ × ℚ) (dt : ℚ) : Enemy :=
  let player_x := player_pos.1
  let distance_to_player := |e.x - player_x|
  let e := { e with velocity_x := 0 }
  let e :=
    if distance_to_player < detection_range then
      if e.x < player_x then
        { e with velocity_x := e.speed, facing_right := true
               , state := if e.on_ground then "run" else e.state }
      else if e.x > player_x then
        { e with velocity_x := -e.speed, facing_right := false
               , state := if e.on_ground then "run" else e.state }
      else
        if e.on_ground then { e with state := "idle" } else e
    else
      if e.on_ground then { e with state := "idle" } else e
  let e := { e with velocity_y := 0, on_ground := true }
  let e := { e with x := e.x + e.velocity_x * dt }
  let e := { e with y := PLAYER_GROUND_Y }
  let e := { e with x := max 0 (min e.x (WINDOW_WIDTH - (ENEMY_WIDTH : ℚ))) }
  let e := { e with rect := { e.rect with x := pyInt e.x, y := pyInt e.y } }
  { e with animation_frame := e.animation_frame + dt * 10 }

/-- Enemy.take_damage. -/
def Enemy.take_damage (e : Enemy) (amount : ℤ) : Enemy :=
  let h := e.health - amount
  if h < 0 then { e with health := 0 } else { e with health := h }

/-- Enemy.is_alive. -/
def Enemy.is_alive (e : Enemy) : Bool := decide (e.health > 0)

/-! ### Game scene orchestrator (src/scenes/game_scene.py)

Randomness (enemy spawn side, distance and speed) and the particle
system's internal particle list are not needed by any claim; spawns are
recorded as `spawnRequests` increments (one per `_spawn_single_enemy`
call), `_maintain_enemies` calls as `maintainCalls` increments, and each
`ParticleSystem.emit` call as an `EmitEvent` appended to `emits`. -/

/-- One `ParticleSystem.emit(x, y, count, color, speed, type)` call. -/
structure EmitEvent where
  x : ℚ
  y : ℚ
  count : ℕ
  color : Color
  speed : ℚ
  kind : String
  deriving Repr, DecidableEq

structure Scene where
  player : Player
  enemies : List Enemy
  score : ℕ
  max_enemies_on_screen : ℕ
  spawn_timer : ℚ
  spawn_interval : ℚ
  screen_shake : ℚ
  hit_stop_duration : ℕ
  combo_count : ℕ
  combo_timer : ℚ
  combo_timeout : ℚ
  paused : Bool
  game_over : Bool
  emits : List EmitEvent
  spawnRequests : ℕ
  maintainCalls : ℕ
  deriving Repr, DecidableEq

/-- GameScene._spawn_single_enemy: side, distance and speed are drawn from
the RNG, so the model records the request; the spawned enemy itself is not
needed by any claim. -/
def Scene.spawn_single_enemy (s : Scene) : Scene :=
  { s with spawnRequests := s.spawnRequests + 1 }

/-- GameScene._maintain_enemies. -/
def Scene.maintain_enemies (s : Scene) : Scene :=
  let s := { s with maintainCalls := s.maintainCalls + 1 }
  if s.enemies.length < s.max_enemies_on_screen then s.spawn_single_enemy else s

/-- The inner `for enemy in self.enemies` attack loop (GameScene.update):
damage the first live enemy whose rect overlaps the attack rect, then
break. Returns the updated list and the damaged enemy, if any. -/
def attackLoop (atk : Rect) : List Enemy → List Enemy × Option Enemy
  | [] => ([], none)
  | e :: rest =>
    if e.is_alive && collideRect atk e.rect then
      let e2 := e.take_damage 1
      (e2 :: rest, some e2)
    else
      let r := attackLoop atk rest
      (e :: r.1, r.2)

/-- The kill bookkeeping run when the damaged enemy died (GameScene.update
lines 216-236): score, shake, blood burst, hit stop, combo, the
every-10th-kill heal, and the immediate replacement spawn. -/
def Scene.killEffects (s : Scene) (e : Enemy) : Scene :=
  let score := s.score + 1
  let bloodBurst : EmitEvent :=
    { x := e.x + ((e.rect.w / 2 : ℤ) : ℚ), y := e.y + ((e.rect.h / 2 : ℤ) : ℚ),
      count := 20, color := RED, speed := 8, kind := "blood" }
  let s := { s with score := score, screen_shake := 10,
                    emits := s.emits ++ [bloodBurst],
                    hit_stop_duration := 3,
                    combo_count := s.combo_count + 1,
                    combo_timer := s.combo_timeout }
  let s :=
    if score > 0 ∧ score % 10 = 0 then
      let healBurst : EmitEvent :=
        { x := s.player.x, y := s.player.y,
          count := 15, color := GREEN, speed := 4, kind := "dust" }
      { s with player := { s.player with
                 health := min s.player.max_health (s.player.health + 10) },
               emits := s.emits ++ [healBurst] }
    else s
  s.spawn_single_enemy

/-- The attack-handling block of GameScene.update (lines 210-239), entered
when `self.player` exists and is alive: if the attack key is held and
`attack()` succeeds, run the attack loop and, if the damaged enemy died,
the kill bookkeeping. -/
def Scene.attackPhase (s : Scene) (keys : Keys) : Scene :=
  if keys.space || keys.xkey then
    let a := s.player.attack
    let s := { s with player := a.2 }
    if a.1 then
      let r := attackLoop (s.player.get_attack_rect) s.enemies
      let s := { s with enemies := r.1 }
      match r.2 with
      | none => s
      | some e => if !e.is_alive then s.killEffects e else s
    else s
  else s

/-- One iteration of the enemy loop of GameScene.update (lines 241-259):
update a live enemy against the player's position, then resolve
enemy-vs-player contact damage. Returns the scene and the enemy as left in
the list. -/
def Scene.contactStep (s : Scene) (player_pos : ℚ × ℚ) (dt : ℚ) (e : Enemy) :
    Scene × Enemy :=
  if e.is_alive then
    let e2 := e.update player_pos dt
    if collideRect e2.rect s.player.rect then
      if s.player.attack_cooldown ≤ 0 ∧ ¬(s.player.is_dashing = true) then
        let p := s.player.take_damage 1
        let p := { p with attack_cooldown := 1200 }
        let hitBurst : EmitEvent :=
          { x := s.player.x, y := s.player.y,
            count := 5, color := RED, speed := 3, kind := "explosion" }
        ({ s with player := p, screen_shake := 5,
                  emits := s.emits ++ [hitBurst],
                  combo_count := 0 }, e2)
      else (s, e2)
    else (s, e2)
  else (s, e)

/-- The periodic spawn-timer block of GameScene.update (lines 264-272):
`spawn_timer += dt * 10`; past the interval, call `_maintain_enemies`,
reset the timer and recompute the population cap. -/
def Scene.spawnPhase (s : Scene) (dt : ℚ) : Scene :=
  let s := { s with spawn_timer := s.spawn_timer + dt * 10 }
  if s.spawn_timer > s.spawn_interval then
    let s := s.maintain_enemies
    let s := { s with spawn_timer := 0 }
    let target_enemies := 3 + s.score / 5
    { s with max_enemies_on_screen := min target_enemies 10 }
  else s

/-- GameScene.handle_event for KEYDOWN events: the keys it distinguishes. -/
inductive EventKey where
  | escape
  | r
  | other
  deriving Repr, DecidableEq

/-- GameScene.start(level=0, action="new_game"), as invoked by the restart
branch of handle_event: reset the pause/game-over/shake/combo state and the
score, recreate the player at the fixed spawn point, clear the enemy list
and run one `_maintain_enemies`. (Font and background loading are
presentation-only; the "continue" branch is not reachable from
handle_event.) -/
def Scene.restart (s : Scene) : Scene :=
  let s := { s with paused := false, game_over := false, screen_shake := 0,
                    combo_count := 0, score := 0 }
  let s := { s with player := Player.init (WINDOW_WIDTH / 2) PLAYER_GROUND_Y }
  let s := { s with enemies := [] }
  s.maintain_enemies

/-- GameScene.handle_event restricted to KEYDOWN events (the only event
type it inspects): returns the new scene and the requested next scene, if
any. -/
def Scene.handle_event (s : Scene) (key : EventKey) : Scene × Option String :=
  if key = EventKey.escape then
    let s := { s with paused := !s.paused }
    if s.paused then (s, some "main_menu")
    else
      if s.game_over && key = EventKey.r then (s.restart, none) else (s, none)
  else
    if s.game_over && key = EventKey.r then (s.restart, none) else (s, none)

/-! ### Save/load (src/utils/helpers.py)

`load_savegame` does file I/O through `os.path.exists`, `open` and
`json.load`. The model distinguishes every outcome the code
distinguishes: the file is missing (`os.path.exists` false), the try
block raises one of the two exception classes the handler catches
(IOError from opening/reading, json.JSONDecodeError from parsing), the
try block raises an exception outside those classes (for example
UnicodeDecodeError, a ValueError subclass, when the file's bytes are not
valid UTF-8 — `except (json.JSONDecodeError, IOError)` does not catch
it), or parsing yields a JSON value. -/

/-- A JSON value, as produced by json.load. -/
inductive Json where
  | null
  | bool (b : Bool)
  | num (q : ℚ)
  | str (s : String)
  | arr (elems : List Json)
  | obj (fields : List (String × Json))
  deriving Repr

/-- What reading and JSON-parsing the file at the given path does. -/
inductive ReadOutcome where
  /-- `os.path.exists(filepath)` is false. -/
  | fileMissing
  /-- open/read raises IOError — caught by the handler. -/
  | ioError
  /-- json.load raises json.JSONDecodeError — caught by the handler. -/
  | jsonDecodeError
  /-- the try block raises an exception outside the two caught classes,
  e.g. UnicodeDecodeError on file bytes that are not valid UTF-8. -/
  | uncaughtError
  /-- json.load succeeds with the value j. -/
  | parsed (j : Json)
  deriving Repr

/-- How a load_savegame call ends for its caller. -/
inductive LoadResult where
  /-- the function returns j. -/
  | returns (j : Json)
  /-- an uncaught exception propagates out of the function. -/
  | raises
  deriving Repr

/-- The `default_save` record in load_savegame. -/
def default_save : Json :=
  .obj [("level", .num 0), ("player_health", .num 100), ("enemies_defeated", .num 0)]

/-- load_savegame: defaults when the file is missing or the try block
raises one of the two caught exception classes; the parsed data returned
verbatim on success; any other exception propagates to the caller. -/
def load_savegame : ReadOutcome → LoadResult
  | .fileMissing => .returns default_save
  | .ioError => .returns default_save
  | .jsonDecodeError => .returns default_save
  | .uncaughtError => .raises
  | .parsed j => .returns j

/-! ### Derived iteration helpers and sample states -/

/-- Iterate Player.update over a list of (key snapshot, dt) frames. -/
def Player.updateSeq (p : Player) (frames : List (Keys × ℚ)) : Player :=
  frames.foldl (fun q kd => q.update kd.1 kd.2) p

/-- Accumulated "ms-equivalent" time of a frame sequence: the sum of
`dt * 1000` over the frames, matching the source's millisecond timers. -/
def elapsedMs (frames : List (Keys × ℚ)) : ℚ :=
  (frames.map fun kd => kd.2).sum * 1000

/-- Iterate the periodic spawn-timer block over a list of frame deltas. -/
def Scene.spawnSeq (s : Scene) (dts : List ℚ) : Scene :=
  dts.foldl Scene.spawnPhase s

/-- The condition tested in the attack loop for each enemy. -/
def hitCond (atk : Rect) (e : Enemy) : Bool :=
  e.is_alive && collideRect atk e.rect

/-- A key snapshot with nothing held. -/
def noKeys : Keys :=
  { left := false, right := false, a := false, d := false, up := false,
    w := false, lshift := false, rshift := false, space := false, xkey := false }

/-- A key snapshot holding only the left-shift (dash) key. -/
def dashKeys : Keys := { noKeys with lshift := true }

/-- A key snapshot holding only the space (attack) key. -/
def attackKeys : Keys := { noKeys with space := true }

/-- The scene as GameScene.__init__ followed by start(action="new_game")
leaves it, before any enemies are spawned: player at the fixed spawn point,
score 0, spawn timer 0, interval 2000, combo timeout 3000, enemy cap 5. -/
def scene0 : Scene :=
  { player := Player.init (WINDOW_WIDTH / 2) PLAYER_GROUND_Y,
    enemies := [],
    score := 0, max_enemies_on_screen := 5,
    spawn_timer := 0, spawn_interval := 2000,
    screen_shake := 0, hit_stop_duration := 0,
    combo_count := 0, combo_timer := 0, combo_timeout := 3000,
    paused := false, game_over := false,
    emits := [], spawnRequests := 0, maintainCalls := 0 }

/-! ### Claim C9: corrupted or missing save yields the default record -/

/-- C9 counterexample: a save file whose contents cannot be read as text —
bytes that are not valid UTF-8, raising UnicodeDecodeError inside the try
block — is contents that "cannot be read or parsed as structured data",
yet load_savegame does not return the default record there: the exception
is outside the two caught classes and propagates to the caller. -/
theorem C9_counterexample :
    load_savegame ReadOutcome.uncaughtError = LoadResult.raises ∧
    ∀ j : Json, load_savegame ReadOutcome.uncaughtError ≠ LoadResult.returns j :=
  ⟨rfl, fun _ h => nomatch h⟩

/-- C9 (amended): load_savegame returns the default record
{level: 0, player_health: 100, enemies_defeated: 0} and raises no error
when no file exists at the path, when opening or reading raises IOError,
or when parsing raises json.JSONDecodeError — the two exception classes
its handler catches; an exception outside those classes (such as
UnicodeDecodeError on save-file bytes that are not valid UTF-8)
propagates to the caller instead. -/
theorem C9_default_on_caught_failures :
    load_savegame ReadOutcome.fileMissing =
      LoadResult.returns
        (Json.obj [("level", Json.num 0), ("player_health", Json.num 100),
                   ("enemies_defeated", Json.num 0)]) ∧
    load_savegame ReadOutcome.ioError =
      LoadResult.returns
        (Json.obj [("level", Json.num 0), ("player_health", Json.num 100),
                   ("enemies_defeated", Json.num 0)]) ∧
    load_savegame ReadOutcome.jsonDecodeError =
      LoadResult.returns
        (Json.obj [("level", Json.num 0), ("player_health", Json.num 100),
                   ("enemies_defeated", Json.num 0)]) ∧
    load_savegame ReadOutcome.uncaughtError = LoadResult.raises :=
  ⟨rfl, rfl, rfl, rfl⟩

/-! ### Claim C10: successfully parsed JSON is returned verbatim -/

/-- C10: whenever the file's contents parse as JSON, load_savegame returns
the parsed value verbatim, with no validation of its shape or keys; the
default record is substituted only when the file is absent or a caught
read or parse failure occurs. -/
theorem C10_parsed_returned_verbatim :
    (∀ j : Json, load_savegame (ReadOutcome.parsed j) = LoadResult.returns j) ∧
    load_savegame (ReadOutcome.parsed (Json.arr [])) =
      LoadResult.returns (Json.arr []) ∧
    load_savegame ReadOutcome.fileMissing = LoadResult.returns default_save ∧
    load_savegame ReadOutcome.ioError = LoadResult.returns default_save ∧
    load_savegame ReadOutcome.jsonDecodeError = LoadResult.returns default_save :=
  ⟨fun _ => rfl, rfl, rfl, rfl, rfl⟩

/-! ### Claim C5: the pause toggle -/

/-- C5 counterexample: from a running scene, a single pause (escape) event
does request a scene transition — handle_event returns "main_menu" —
contradicting the claim that no scene transition is requested. -/
theorem C5_counterexample :
    (scene0.handle_event EventKey.escape).2 = some "main_menu" ∧
    (scene0.handle_event EventKey.escape).2 ≠ none := by
  constructor
  · rfl
  · intro h
    simp [Scene.handle_event, scene0] at h

/-- C5 (amended): a pause input event flips the paused flag and changes no
other scene state; when the toggle enters Paused the handler additionally
requests a transition to the main menu, and a second pause event returns
the scene to Running with no transition request. -/
theorem C5_pause_toggle (s : Scene) :
    (s.handle_event EventKey.escape).1 = { s with paused := !s.paused } ∧
    (s.handle_event EventKey.escape).2 =
      (if s.paused = false then some "main_menu" else none) := by
  cases hp : s.paused <;>
    simp [Scene.handle_event, hp]

/-- C5 witness: the toggle applied twice from the initial running scene
passes through Paused and back to Running. -/
theorem C5_pause_toggle_witness :
    (scene0.handle_event EventKey.escape).1.paused = true ∧
    (((scene0.handle_event EventKey.escape).1.handle_event
        EventKey.escape).1).paused = false := by
  have h1 := C5_pause_toggle scene0
  have h2 := C5_pause_toggle (scene0.handle_event EventKey.escape).1
  refine ⟨?_, ?_⟩
  · rw [h1.1]; simp [scene0]
  · rw [h2.1, h1.1]; simp [scene0]

/-! ### Claim C7: the horizontal clamp -/

/-- Values produced by the source's `max(0, min(x, W - width))` clamp lie
in the claimed interval. -/
lemma clamp_bounds (v C : ℚ) (hC : 0 ≤ C) :
    0 ≤ max 0 (min v C) ∧ max 0 (min v C) ≤ C :=
  ⟨le_max_left 0 _, max_le hC (min_le_right v C)⟩

lemma dashMove_x_shape (p : Player) (dt : ℚ) :
    ∃ v, (p.dashMove dt).x = max 0 (min v (WINDOW_WIDTH - (PLAYER_WIDTH : ℚ))) :=
  ⟨_, rfl⟩

lemma tickAnimation_x (p : Player) (dt : ℚ) : (p.tickAnimation dt).x = p.x := rfl

lemma tickAttackCooldown_x (p : Player) (dt : ℚ) :
    (p.tickAttackCooldown dt).x = p.x := by
  unfold Player.tickAttackCooldown; split <;> rfl

lemma updateRect_x (p : Player) : p.updateRect.x = p.x := rfl

lemma clampX_x (p : Player) :
    p.clampX.x = max 0 (min p.x (WINDOW_WIDTH - (PLAYER_WIDTH : ℚ))) := rfl

lemma normalMove_x_bounds (p : Player) (keys : Keys) (dt : ℚ) :
    0 ≤ (p.normalMove keys dt).x ∧
    (p.normalMove keys dt).x ≤ WINDOW_WIDTH - (PLAYER_WIDTH : ℚ) := by
  unfold Player.normalMove
  rw [tickAnimation_x, tickAttackCooldown_x, updateRect_x, clampX_x]
  exact clamp_bounds _ _ (by norm_num [WINDOW_WIDTH, PLAYER_WIDTH])

lemma enemy_update_x_shape (e : Enemy) (pp : ℚ × ℚ) (dt : ℚ) :
    ∃ v, (e.update pp dt).x = max 0 (min v (WINDOW_WIDTH - (ENEMY_WIDTH : ℚ))) :=
  ⟨_, rfl⟩

/-- C7: every player update (dashing or normal path) and every enemy update
leaves the entity's x coordinate in [0, screen_width - entity_width],
whatever the input and dt. -/
theorem C7_horizontal_clamp :
    (∀ (p : Player) (keys : Keys) (dt : ℚ),
        0 ≤ (p.update keys dt).x ∧
        (p.update keys dt).x ≤ WINDOW_WIDTH - (PLAYER_WIDTH : ℚ)) ∧
    (∀ (e : Enemy) (pp : ℚ × ℚ) (dt : ℚ),
        0 ≤ (e.update pp dt).x ∧
        (e.update pp dt).x ≤ WINDOW_WIDTH - (ENEMY_WIDTH : ℚ)) := by
  constructor
  · intro p keys dt
    unfold Player.update
    dsimp only
    split
    · obtain ⟨v, hv⟩ := dashMove_x_shape _ dt
      rw [hv]
      exact clamp_bounds v _ (by norm_num [WINDOW_WIDTH, PLAYER_WIDTH])
    · exact normalMove_x_bounds _ keys dt
  · intro e pp dt
    obtain ⟨v, hv⟩ := enemy_update_x_shape e pp dt
    rw [hv]
    exact clamp_bounds v _ (by norm_num [WINDOW_WIDTH, ENEMY_WIDTH])

/-! ### Attack resolution lemmas (for C1, C3 and the kill clause of C4) -/

lemma attack_of_ready (p : Player) (h : p.attack_cooldown ≤ 0) :
    p.attack = (true, { p with attack_cooldown := ATTACK_COOLDOWN }) := by
  unfold Player.attack; rw [if_pos h]

lemma attack_of_cooldown (p : Player) (h : ¬p.attack_cooldown ≤ 0) :
    p.attack = (false, p) := by
  unfold Player.attack; rw [if_neg h]

/-- attack() only touches the cooldown, so the attack rect is unchanged. -/
lemma get_attack_rect_set_cooldown (p : Player) (c : ℚ) :
    Player.get_attack_rect { p with attack_cooldown := c } = p.get_attack_rect := rfl

/-- The attack loop, at the first index whose enemy passes the
alive-and-overlap test: that enemy takes 1 damage in place and the loop
breaks. -/
lemma attackLoop_eq_of_first (atk : Rect) (es : List Enemy) :
    ∀ (k : ℕ) (e : Enemy), es[k]? = some e → hitCond atk e = true →
      (∀ j, j < k → ∀ e', es[j]? = some e' → hitCond atk e' = false) →
      attackLoop atk es = (es.set k (e.take_damage 1), some (e.take_damage 1)) := by
  induction es with
  | nil => intro k e hk _ _; simp at hk
  | cons a es ih =>
    intro k e hk hhit hfirst
    cases k with
    | zero =>
      simp only [List.getElem?_cons_zero, Option.some.injEq] at hk
      subst hk
      simp only [hitCond] at hhit
      simp [attackLoop, hhit]
    | succ k =>
      have h0 : hitCond atk a = false := hfirst 0 (Nat.succ_pos k) a (by simp)
      simp only [List.getElem?_cons_succ] at hk
      have hrest := ih k e hk hhit
        (fun j hj e' hj' => hfirst (j + 1) (by omega) e' (by simpa using hj'))
      simp only [hitCond] at h0
      simp [attackLoop, h0, hrest]

/-- If some enemy in the list passes the test, there is a first one. -/
lemma exists_first_hit (atk : Rect) (es : List Enemy)
    (hex : ∃ e ∈ es, hitCond atk e = true) :
    ∃ (k : ℕ) (e : Enemy), es[k]? = some e ∧ hitCond atk e = true ∧
      ∀ j, j < k → ∀ e', es[j]? = some e' → hitCond atk e' = false := by
  induction es with
  | nil => simp at hex
  | cons a es ih =>
    by_cases ha : hitCond atk a = true
    · exact ⟨0, a, by simp, ha, fun j hj => absurd hj (Nat.not_lt_zero j)⟩
    · obtain ⟨e, he, hhit⟩ := hex
      rcases List.mem_cons.mp he with rfl | he'
      · exact absurd hhit ha
      · obtain ⟨k, e', h1, h2, h3⟩ := ih ⟨e, he', hhit⟩
        refine ⟨k + 1, e', by simpa using h1, h2, ?_⟩
        intro j hj e'' hj'
        cases j with
        | zero =>
          simp only [List.getElem?_cons_zero, Option.some.injEq] at hj'
          subst hj'
          simpa using ha
        | succ j => exact h3 j (by omega) e'' (by simpa using hj')

/-- A one-hit-point enemy dies to take_damage(1). -/
lemma take_damage_one_dead (e : Enemy) (h : e.health = 1) :
    (e.take_damage 1).health = 0 ∧ (e.take_damage 1).is_alive = false := by
  unfold Enemy.take_damage Enemy.is_alive
  rw [h]
  norm_num

/-- The attack phase when the attack key is held, the cooldown gate is
open, and the first live overlapping enemy dies to the hit: the scene is
exactly the kill bookkeeping applied after the cooldown reset and the
in-place enemy damage. -/
lemma attackPhase_of_kill (s : Scene) (keys : Keys)
    (hkey : keys.space = true ∨ keys.xkey = true)
    (hcd : s.player.attack_cooldown ≤ 0)
    (k : ℕ) (e : Enemy)
    (hk : s.enemies[k]? = some e)
    (hhit : hitCond (s.player.get_attack_rect) e = true)
    (hfirst : ∀ j, j < k → ∀ e',
      s.enemies[j]? = some e' → hitCond (s.player.get_attack_rect) e' = false)
    (hdead : (e.take_damage 1).is_alive = false) :
    s.attackPhase keys =
      Scene.killEffects
        { s with player := { s.player with attack_cooldown := ATTACK_COOLDOWN },
                 enemies := s.enemies.set k (e.take_damage 1) }
        (e.take_damage 1) := by
  have hksp : (keys.space || keys.xkey) = true := by
    rcases hkey with h | h <;> simp [h]
  have hloop := attackLoop_eq_of_first (s.player.get_attack_rect) s.enemies k e
    hk hhit hfirst
  simp only [Scene.attackPhase, hksp, attack_of_ready s.player hcd,
    get_attack_rect_set_cooldown, hloop, hdead, if_true, Bool.not_false]

/-- Field bookkeeping of killEffects that does not depend on the heal
branch. -/
lemma killEffects_proj (s : Scene) (e : Enemy) :
    (s.killEffects e).score = s.score + 1 ∧
    (s.killEffects e).screen_shake = 10 ∧
    (s.killEffects e).hit_stop_duration = 3 ∧
    (s.killEffects e).combo_count = s.combo_count + 1 ∧
    (s.killEffects e).combo_timer = s.combo_timeout ∧
    (s.killEffects e).spawnRequests = s.spawnRequests + 1 ∧
    (s.killEffects e).enemies = s.enemies := by
  unfold Scene.killEffects Scene.spawn_single_enemy
  dsimp only
  split <;> simp

/-! ### Claim C1: at most one kill per successful attack -/

/-- C1: on a frame where the attack key is held and the attack succeeds,
even with two (or more) live enemies overlapping the attack hitbox, the
loop damages exactly the first overlapping live enemy in population order:
that enemy's health reaches 0 and every other list entry is unchanged. -/
theorem C1_at_most_one_kill (s : Scene) (keys : Keys)
    (hkey : keys.space = true ∨ keys.xkey = true)
    (hcd : s.player.attack_cooldown ≤ 0)
    (hall : ∀ e ∈ s.enemies, e.health = 1)
    (i j : ℕ) (ei ej : Enemy) (hij : i ≠ j)
    (hi : s.enemies[i]? = some ei) (hj : s.enemies[j]? = some ej)
    (hhi : hitCond (s.player.get_attack_rect) ei = true)
    (hhj : hitCond (s.player.get_attack_rect) ej = true) :
    ∃ (k : ℕ) (e : Enemy),
      s.enemies[k]? = some e ∧
      (∀ m, m < k → ∀ e',
        s.enemies[m]? = some e' → hitCond (s.player.get_attack_rect) e' = false) ∧
      (s.attackPhase keys).enemies[k]? = some (e.take_damage 1) ∧
      (e.take_damage 1).health = 0 ∧
      (∀ m, m ≠ k → (s.attackPhase keys).enemies[m]? = s.enemies[m]?) := by
  obtain ⟨k, e, hk, hhit, hfirst⟩ :=
    exists_first_hit (s.player.get_attack_rect) s.enemies ⟨ei, List.getElem?_mem hi, hhi⟩
  have he1 : e.health = 1 := hall e (List.getElem?_mem hk)
  obtain ⟨hd0, hdead⟩ := take_damage_one_dead e he1
  have hphase := attackPhase_of_kill s keys hkey hcd k e hk hhit hfirst hdead
  have hkl : k < s.enemies.length := by
    rw [List.getElem?_eq_some] at hk
    exact hk.1
  have hens : (s.attackPhase keys).enemies = s.enemies.set k (e.take_damage 1) := by
    rw [hphase]
    exact (killEffects_proj _ _).2.2.2.2.2.2
  refine ⟨k, e, hk, hfirst, ?_, hd0, ?_⟩
  · rw [hens]
    exact List.getElem?_set_eq_of_lt _ hkl
  · intro m hm
    rw [hens]
    exact List.getElem?_set_ne (fun h => hm h.symm)

/-- The scene used by several witnesses: the fresh scene with two live
enemies standing inside the player's attack reach. -/
def sceneTwoOverlap : Scene :=
  { scene0 with enemies := [Enemy.init 608 622 1, Enemy.init 608 622 1] }

/-- C1 witness: in the concrete two-overlapping-enemies scene, the attack
kills exactly the first enemy and leaves the second untouched. -/
theorem C1_at_most_one_kill_witness :
    ∃ (k : ℕ) (e : Enemy),
      sceneTwoOverlap.enemies[k]? = some e ∧
      (∀ m, m < k → ∀ e', sceneTwoOverlap.enemies[m]? = some e' →
        hitCond (sceneTwoOverlap.player.get_attack_rect) e' = false) ∧
      (sceneTwoOverlap.attackPhase attackKeys).enemies[k]? = some (e.take_damage 1) ∧
      (e.take_damage 1).health = 0 ∧
      (∀ m, m ≠ k →
        (sceneTwoOverlap.attackPhase attackKeys).enemies[m]? =
          sceneTwoOverlap.enemies[m]?) := by
  have hhit : hitCond sceneTwoOverlap.player.get_attack_rect
      (Enemy.init 608 622 1) = true := by
    norm_num [hitCond, collideRect, Enemy.init, Enemy.is_alive,
      Player.get_attack_rect, Player.init, sceneTwoOverlap, scene0, pyInt,
      WINDOW_WIDTH, WINDOW_HEIGHT, PLAYER_WIDTH, PLAYER_HEIGHT, PLAYER_GROUND_Y,
      ENEMY_WIDTH, ENEMY_HEIGHT, ATTACK_RANGE]
  refine C1_at_most_one_kill sceneTwoOverlap attackKeys (Or.inl rfl) ?_ ?_
    0 1 (Enemy.init 608 622 1) (Enemy.init 608 622 1) (by decide) rfl rfl hhit hhit
  · norm_num [sceneTwoOverlap, scene0, Player.init]
  · intro e he
    rcases List.mem_pair.mp he with rfl | rfl <;> rfl

/-! ### Claim C3: a kill at score 9 triggers the milestone heal -/

/-- C3: from score 9 and player health 50/100, one successful attack that
kills an overlapping enemy yields score 10, health 60 (heal of 10 capped at
max health), a heal-type particle burst after the blood burst, screen shake
10, hit-stop armed for 3 frames, the combo incremented with its timer
reset, and one replacement spawn requested immediately. -/
theorem C3_kill_triggers_heal (s : Scene) (keys : Keys)
    (hkey : keys.space = true ∨ keys.xkey = true)
    (hcd : s.player.attack_cooldown ≤ 0)
    (hscore : s.score = 9)
    (hhp : s.player.health = 50) (hmax : s.player.max_health = 100)
    (hall : ∀ e ∈ s.enemies, e.health = 1)
    (hex : ∃ e ∈ s.enemies, hitCond (s.player.get_attack_rect) e = true) :
    (s.attackPhase keys).score = 10 ∧
    (s.attackPhase keys).player.health = 60 ∧
    (∃ b, (s.attackPhase keys).emits =
        s.emits ++ [b, { x := s.player.x, y := s.player.y, count := 15,
                         color := GREEN, speed := 4, kind := "dust" }] ∧
      b.kind = "blood") ∧
    (s.attackPhase keys).screen_shake = 10 ∧
    (s.attackPhase keys).hit_stop_duration = 3 ∧
    (s.attackPhase keys).combo_count = s.combo_count + 1 ∧
    (s.attackPhase keys).combo_timer = s.combo_timeout ∧
    (s.attackPhase keys).spawnRequests = s.spawnRequests + 1 := by
  obtain ⟨k, e, hk, hhit, hfirst⟩ :=
    exists_first_hit (s.player.get_attack_rect) s.enemies hex
  have he1 : e.health = 1 := hall e (List.getElem?_mem hk)
  obtain ⟨hd0, hdead⟩ := take_damage_one_dead e he1
  rw [attackPhase_of_kill s keys hkey hcd k e hk hhit hfirst hdead]
  unfold Scene.killEffects Scene.spawn_single_enemy
  dsimp only
  rw [if_pos (by rw [hscore]; norm_num)]
  refine ⟨by rw [hscore], ?_,
    ⟨{ x := (e.take_damage 1).x + (((e.take_damage 1).rect.w / 2 : ℤ) : ℚ),
       y := (e.take_damage 1).y + (((e.take_damage 1).rect.h / 2 : ℤ) : ℚ),
       count := 20, color := RED, speed := 8, kind := "blood" }, ?_, rfl⟩,
    rfl, rfl, rfl, rfl, rfl⟩
  · dsimp only
    rw [hhp, hmax]
    norm_num
  · dsimp only
    rw [List.append_assoc]
    rfl

/-- The concrete scene for the C3 scenario: score 9, player at 50/100
health, one live enemy inside attack reach. -/
def sceneScoreNine : Scene :=
  { scene0 with
    score := 9,
    player := { Player.init (WINDOW_WIDTH / 2) PLAYER_GROUND_Y with health := 50 },
    enemies := [Enemy.init 608 622 1] }

/-- C3 witness: the scenario evaluated on the concrete scene. -/
theorem C3_kill_triggers_heal_witness :
    (sceneScoreNine.attackPhase attackKeys).score = 10 ∧
    (sceneScoreNine.attackPhase attackKeys).player.health = 60 ∧
    (∃ b, (sceneScoreNine.attackPhase attackKeys).emits =
        sceneScoreNine.emits ++
          [b, { x := sceneScoreNine.player.x, y := sceneScoreNine.player.y,
                count := 15, color := GREEN, speed := 4, kind := "dust" }] ∧
      b.kind = "blood") ∧
    (sceneScoreNine.attackPhase attackKeys).screen_shake = 10 ∧
    (sceneScoreNine.attackPhase attackKeys).hit_stop_duration = 3 ∧
    (sceneScoreNine.attackPhase attackKeys).combo_count =
      sceneScoreNine.combo_count + 1 ∧
    (sceneScoreNine.attackPhase attackKeys).combo_timer =
      sceneScoreNine.combo_timeout ∧
    (sceneScoreNine.attackPhase attackKeys).spawnRequests =
      sceneScoreNine.spawnRequests + 1 := by
  have hhit : hitCond sceneScoreNine.player.get_attack_rect
      (Enemy.init 608 622 1) = true := by
    norm_num [hitCond, collideRect, Enemy.init, Enemy.is_alive,
      Player.get_attack_rect, Player.init, sceneScoreNine, scene0, pyInt,
      WINDOW_WIDTH, WINDOW_HEIGHT, PLAYER_WIDTH, PLAYER_HEIGHT, PLAYER_GROUND_Y,
      ENEMY_WIDTH, ENEMY_HEIGHT, ATTACK_RANGE]
  refine C3_kill_triggers_heal sceneScoreNine attackKeys (Or.inl rfl) ?_ rfl rfl
    rfl ?_ ⟨Enemy.init 608 622 1, by simp [sceneScoreNine], hhit⟩
  · norm_num [sceneScoreNine, scene0, Player.init]
  · intro e he
    rw [show sceneScoreNine.enemies = [Enemy.init 608 622 1] from rfl,
      List.mem_singleton] at he
    subst he
    rfl

/-! ### Claim C2: enemy-contact damage and invincibility gating -/

/-- take_damage while not dashing subtracts the amount (no floor needed
when at least 1 health remains for 1 damage). -/
lemma take_damage_not_dashing (p : Player) (hd : p.is_dashing = false)
    (hhp : 1 ≤ p.health) :
    p.take_damage 1 = { p with health := p.health - 1 } := by
  unfold Player.take_damage
  rw [hd]
  simp only [Bool.false_eq_true, if_false]
  rw [if_neg (by omega)]

/-- C2: when a live enemy's post-update bounding box overlaps the player's:
if the cooldown gate is open (attack_cooldown ≤ 0) and the player is not
dashing, exactly 1 damage is applied, the cooldown field is set to 1200 as
the invincibility window, screen shake becomes 5, a small red particle
burst is emitted and the combo resets to 0 on that same update; if the
cooldown is positive or the player is dashing, the scene (in particular
the player's health) is unchanged by the contact. -/
theorem C2_contact_damage (s : Scene) (pp : ℚ × ℚ) (dt : ℚ) (e : Enemy)
    (halive : e.is_alive = true)
    (hcol : collideRect (e.update pp dt).rect s.player.rect = true)
    (hhp : 1 ≤ s.player.health) :
    (s.player.attack_cooldown ≤ 0 ∧ s.player.is_dashing = false →
      (s.contactStep pp dt e).1.player.health = s.player.health - 1 ∧
      (s.contactStep pp dt e).1.player.attack_cooldown = 1200 ∧
      (s.contactStep pp dt e).1.screen_shake = 5 ∧
      (s.contactStep pp dt e).1.emits = s.emits ++
        [{ x := s.player.x, y := s.player.y, count := 5, color := RED,
           speed := 3, kind := "explosion" }] ∧
      (s.contactStep pp dt e).1.combo_count = 0) ∧
    (0 < s.player.attack_cooldown ∨ s.player.is_dashing = true →
      (s.contactStep pp dt e).1 = s) := by
  simp only [Scene.contactStep, halive, hcol, eq_self_iff_true, if_true]
  constructor
  · rintro ⟨h1, h2⟩
    rw [if_pos ⟨h1, by rw [h2]; exact Bool.false_ne_true⟩]
    rw [take_damage_not_dashing s.player h2 hhp]
    exact ⟨rfl, rfl, rfl, rfl, rfl⟩
  · intro h
    rw [if_neg ?_]
    rcases h with h | h
    · exact fun hc => absurd hc.1 (by exact not_le.mpr h)
    · exact fun hc => absurd rfl (h ▸ hc.2)

/-- C2 witness: the contact resolved on a concrete scene with the enemy
standing on the player, with the gate open. -/
theorem C2_contact_damage_witness :
    (scene0.contactStep (512, 622) 1 (Enemy.init 512 622 1)).1.player.health =
      scene0.player.health - 1 ∧
    (scene0.contactStep (512, 622) 1 (Enemy.init 512 622 1)).1.player.attack_cooldown
      = 1200 ∧
    (scene0.contactStep (512, 622) 1 (Enemy.init 512 622 1)).1.screen_shake = 5 ∧
    (scene0.contactStep (512, 622) 1 (Enemy.init 512 622 1)).1.combo_count = 0 := by
  have hcol : collideRect ((Enemy.init 512 622 1).update (512, 622) 1).rect
      scene0.player.rect = true := by
    norm_num [Enemy.update, Enemy.init, collideRect, Player.init, scene0, pyInt,
      detection_range, WINDOW_WIDTH, WINDOW_HEIGHT, PLAYER_WIDTH, PLAYER_HEIGHT,
      PLAYER_GROUND_Y, ENEMY_WIDTH, ENEMY_HEIGHT]
  have h := C2_contact_damage scene0 (512, 622) 1 (Enemy.init 512 622 1)
    rfl hcol (by norm_num [scene0, Player.init, PLAYER_HEALTH])
  have h2 := h.1 ⟨by norm_num [scene0, Player.init], rfl⟩
  exact ⟨h2.1, h2.2.1, h2.2.2.1, h2.2.2.2.2⟩

/-! ### Player.update stage lemmas (for C6 and C8) -/

lemma tickDashCooldown_pos (p : Player) (dt : ℚ) (h : 0 < p.dash_cooldown) :
    p.tickDashCooldown dt = { p with dash_cooldown := p.dash_cooldown - dt * 1000 } := by
  unfold Player.tickDashCooldown; rw [if_pos h]

lemma tickDashCooldown_nonpos (p : Player) (dt : ℚ) (h : ¬0 < p.dash_cooldown) :
    p.tickDashCooldown dt = p := by
  unfold Player.tickDashCooldown; rw [if_neg h]

lemma tickDash_not (p : Player) (dt : ℚ) (h : p.is_dashing = false) :
    p.tickDash dt = p := by
  unfold Player.tickDash
  simp only [h, Bool.false_eq_true, if_false]

lemma tickDash_end (p : Player) (dt : ℚ) (h : p.is_dashing = true)
    (ht : p.dash_time - dt * 1000 ≤ 0) :
    p.tickDash dt = { p with dash_time := p.dash_time - dt * 1000,
                             is_dashing := false, velocity_x := 0 } := by
  unfold Player.tickDash
  simp only [h, if_true]
  rw [if_pos ht]

lemma tickDash_cont (p : Player) (dt : ℚ) (h : p.is_dashing = true)
    (ht : ¬p.dash_time - dt * 1000 ≤ 0) :
    p.tickDash dt = { p with dash_time := p.dash_time - dt * 1000 } := by
  unfold Player.tickDash
  simp only [h, if_true]
  rw [if_neg ht]

lemma handleDashInput_of_cooldown_pos (p : Player) (k : Keys)
    (h : 0 < p.dash_cooldown) : p.handleDashInput k = p := by
  unfold Player.handleDashInput
  have hd : decide (p.dash_cooldown ≤ 0) = false := decide_eq_false (not_le.mpr h)
  simp [hd]

lemma handleDashInput_of_dashing (p : Player) (k : Keys)
    (h : p.is_dashing = true) : p.handleDashInput k = p := by
  unfold Player.handleDashInput
  simp [h]

lemma handleDashInput_start (p : Player) (k : Keys)
    (hs : k.lshift = true ∨ k.rshift = true) (hc : p.dash_cooldown ≤ 0)
    (hnd : p.is_dashing = false) : p.handleDashInput k = p.start_dash := by
  unfold Player.handleDashInput
  have hb : (k.lshift || k.rshift) = true := by rcases hs with h | h <;> simp [h]
  simp [hb, hc, hnd]

lemma update_eq_dashMove (p : Player) (k : Keys) (dt : ℚ)
    (h : ((p.updateDashTimers dt).handleDashInput k).is_dashing = true) :
    p.update k dt = ((p.updateDashTimers dt).handleDashInput k).dashMove dt := by
  simp only [Player.update, h, if_true]

lemma update_eq_normalMove (p : Player) (k : Keys) (dt : ℚ)
    (h : ((p.updateDashTimers dt).handleDashInput k).is_dashing = false) :
    p.update k dt = ((p.updateDashTimers dt).handleDashInput k).normalMove k dt := by
  simp only [Player.update, h, Bool.false_eq_true, if_false]

lemma moveInput_is_dashing (p : Player) (k : Keys) :
    (p.moveInput k).is_dashing = p.is_dashing := by
  unfold Player.moveInput; dsimp only; repeat' split
  all_goals rfl

lemma moveInput_dash_cooldown (p : Player) (k : Keys) :
    (p.moveInput k).dash_cooldown = p.dash_cooldown := by
  unfold Player.moveInput; dsimp only; repeat' split
  all_goals rfl

lemma moveInput_dash_time (p : Player) (k : Keys) :
    (p.moveInput k).dash_time = p.dash_time := by
  unfold Player.moveInput; dsimp only; repeat' split
  all_goals rfl

lemma moveInput_attack_cooldown (p : Player) (k : Keys) :
    (p.moveInput k).attack_cooldown = p.attack_cooldown := by
  unfold Player.moveInput; dsimp only; repeat' split
  all_goals rfl

lemma jumpInput_is_dashing (p : Player) (k : Keys) :
    (p.jumpInput k).is_dashing = p.is_dashing := by
  unfold Player.jumpInput; split <;> rfl

lemma jumpInput_dash_cooldown (p : Player) (k : Keys) :
    (p.jumpInput k).dash_cooldown = p.dash_cooldown := by
  unfold Player.jumpInput; split <;> rfl

lemma jumpInput_dash_time (p : Player) (k : Keys) :
    (p.jumpInput k).dash_time = p.dash_time := by
  unfold Player.jumpInput; split <;> rfl

lemma jumpInput_attack_cooldown (p : Player) (k : Keys) :
    (p.jumpInput k).attack_cooldown = p.attack_cooldown := by
  unfold Player.jumpInput; split <;> rfl

lemma jumpInput_velocity_x (p : Player) (k : Keys) :
    (p.jumpInput k).velocity_x = p.velocity_x := by
  unfold Player.jumpInput; split <;> rfl

lemma applyGravity_is_dashing (p : Player) :
    p.applyGravity.is_dashing = p.is_dashing := by
  unfold Player.applyGravity; split <;> rfl

lemma applyGravity_dash_cooldown (p : Player) :
    p.applyGravity.dash_cooldown = p.dash_cooldown := by
  unfold Player.applyGravity; split <;> rfl

lemma applyGravity_dash_time (p : Player) :
    p.applyGravity.dash_time = p.dash_time := by
  unfold Player.applyGravity; split <;> rfl

lemma applyGravity_attack_cooldown (p : Player) :
    p.applyGravity.attack_cooldown = p.attack_cooldown := by
  unfold Player.applyGravity; split <;> rfl

lemma applyGravity_velocity_x (p : Player) :
    p.applyGravity.velocity_x = p.velocity_x := by
  unfold Player.applyGravity; split <;> rfl

lemma integrate_is_dashing (p : Player) (dt : ℚ) :
    (p.integrate dt).is_dashing = p.is_dashing := rfl

lemma integrate_dash_cooldown (p : Player) (dt : ℚ) :
    (p.integrate dt).dash_cooldown = p.dash_cooldown := rfl

lemma integrate_dash_time (p : Player) (dt : ℚ) :
    (p.integrate dt).dash_time = p.dash_time := rfl

lemma integrate_attack_cooldown (p : Player) (dt : ℚ) :
    (p.integrate dt).attack_cooldown = p.attack_cooldown := rfl

lemma integrate_velocity_x (p : Player) (dt : ℚ) :
    (p.integrate dt).velocity_x = p.velocity_x := rfl

lemma groundCollision_is_dashing (p : Player) :
    p.groundCollision.is_dashing = p.is_dashing := by
  unfold Player.groundCollision; split <;> rfl

lemma groundCollision_dash_cooldown (p : Player) :
    p.groundCollision.dash_cooldown = p.dash_cooldown := by
  unfold Player.groundCollision; split <;> rfl

lemma groundCollision_dash_time (p : Player) :
    p.groundCollision.dash_time = p.dash_time := by
  unfold Player.groundCollision; split <;> rfl

lemma groundCollision_attack_cooldown (p : Player) :
    p.groundCollision.attack_cooldown = p.attack_cooldown := by
  unfold Player.groundCollision; split <;> rfl

lemma groundCollision_velocity_x (p : Player) :
    p.groundCollision.velocity_x = p.velocity_x := by
  unfold Player.groundCollision; split <;> rfl

lemma clampX_is_dashing (p : Player) : p.clampX.is_dashing = p.is_dashing := rfl

lemma clampX_dash_cooldown (p : Player) :
    p.clampX.dash_cooldown = p.dash_cooldown := rfl

lemma clampX_dash_time (p : Player) : p.clampX.dash_time = p.dash_time := rfl

lemma clampX_attack_cooldown (p : Player) :
    p.clampX.attack_cooldown = p.attack_cooldown := rfl

lemma clampX_velocity_x (p : Player) : p.clampX.velocity_x = p.velocity_x := rfl

lemma updateRect_is_dashing (p : Player) :
    p.updateRect.is_dashing = p.is_dashing := rfl

lemma updateRect_dash_cooldown (p : Player) :
    p.updateRect.dash_cooldown = p.dash_cooldown := rfl

lemma updateRect_dash_time (p : Player) :
    p.updateRect.dash_time = p.dash_time := rfl

lemma updateRect_attack_cooldown (p : Player) :
    p.updateRect.attack_cooldown = p.attack_cooldown := rfl

lemma updateRect_velocity_x (p : Player) :
    p.updateRect.velocity_x = p.velocity_x := rfl

lemma tickAttackCooldown_is_dashing (p : Player) (dt : ℚ) :
    (p.tickAttackCooldown dt).is_dashing = p.is_dashing := by
  unfold Player.tickAttackCooldown; split <;> rfl

lemma tickAttackCooldown_dash_cooldown (p : Player) (dt : ℚ) :
    (p.tickAttackCooldown dt).dash_cooldown = p.dash_cooldown := by
  unfold Player.tickAttackCooldown; split <;> rfl

lemma tickAttackCooldown_dash_time (p : Player) (dt : ℚ) :
    (p.tickAttackCooldown dt).dash_time = p.dash_time := by
  unfold Player.tickAttackCooldown; split <;> rfl

lemma tickAttackCooldown_velocity_x (p : Player) (dt : ℚ) :
    (p.tickAttackCooldown dt).velocity_x = p.velocity_x := by
  unfold Player.tickAttackCooldown; split <;> rfl

lemma tickAttackCooldown_cooldown (p : Player) (dt : ℚ) :
    (p.tickAttackCooldown dt).attack_cooldown =
      if p.attack_cooldown > 0 then p.attack_cooldown - dt * 1000
      else p.attack_cooldown := by
  unfold Player.tickAttackCooldown
  split <;> simp_all

lemma tickAnimation_is_dashing (p : Player) (dt : ℚ) :
    (p.tickAnimation dt).is_dashing = p.is_dashing := rfl

lemma tickAnimation_dash_cooldown (p : Player) (dt : ℚ) :
    (p.tickAnimation dt).dash_cooldown = p.dash_cooldown := rfl

lemma tickAnimation_dash_time (p : Player) (dt : ℚ) :
    (p.tickAnimation dt).dash_time = p.dash_time := rfl

lemma tickAnimation_attack_cooldown (p : Player) (dt : ℚ) :
    (p.tickAnimation dt).attack_cooldown = p.attack_cooldown := rfl

lemma tickAnimation_velocity_x (p : Player) (dt : ℚ) :
    (p.tickAnimation dt).velocity_x = p.velocity_x := rfl

/-- Keys with no horizontal movement input held. -/
def NoMoveKeys (k : Keys) : Prop :=
  k.left = false ∧ k.a = false ∧ k.right = false ∧ k.d = false

lemma moveInput_velocity_x (p : Player) (k : Keys) (hk : NoMoveKeys k) :
    (p.moveInput k).velocity_x = 0 := by
  obtain ⟨h1, h2, h3, h4⟩ := hk
  unfold Player.moveInput
  dsimp only
  simp only [h1, h2, h3, h4, Bool.or_self, Bool.false_eq_true, if_false]
  split
  all_goals rfl

/-- The normal path preserves is_dashing across all its stages. -/
lemma normalMove_is_dashing (p : Player) (k : Keys) (dt : ℚ) :
    (p.normalMove k dt).is_dashing = p.is_dashing := by
  unfold Player.normalMove
  simp only [tickAnimation_is_dashing, tickAttackCooldown_is_dashing,
    updateRect_is_dashing, clampX_is_dashing, groundCollision_is_dashing,
    integrate_is_dashing, applyGravity_is_dashing, jumpInput_is_dashing,
    moveInput_is_dashing]

/-- The normal path preserves the dash cooldown across all its stages. -/
lemma normalMove_dash_cooldown (p : Player) (k : Keys) (dt : ℚ) :
    (p.normalMove k dt).dash_cooldown = p.dash_cooldown := by
  unfold Player.normalMove
  simp only [tickAnimation_dash_cooldown, tickAttackCooldown_dash_cooldown,
    updateRect_dash_cooldown, clampX_dash_cooldown, groundCollision_dash_cooldown,
    integrate_dash_cooldown, applyGravity_dash_cooldown, jumpInput_dash_cooldown,
    moveInput_dash_cooldown]

/-- The normal path preserves the dash time across all its stages. -/
lemma normalMove_dash_time (p : Player) (k : Keys) (dt : ℚ) :
    (p.normalMove k dt).dash_time = p.dash_time := by
  unfold Player.normalMove
  simp only [tickAnimation_dash_time, tickAttackCooldown_dash_time,
    updateRect_dash_time, clampX_dash_time, groundCollision_dash_time,
    integrate_dash_time, applyGravity_dash_time, jumpInput_dash_time,
    moveInput_dash_time]

/-- The normal path's attack cooldown: decremented by dt·1000 when
positive, otherwise left alone. -/
lemma normalMove_attack_cooldown (p : Player) (k : Keys) (dt : ℚ) :
    (p.normalMove k dt).attack_cooldown =
      if p.attack_cooldown > 0 then p.attack_cooldown - dt * 1000
      else p.attack_cooldown := by
  unfold Player.normalMove
  simp only [tickAnimation_attack_cooldown, tickAttackCooldown_cooldown,
    updateRect_attack_cooldown, clampX_attack_cooldown,
    groundCollision_attack_cooldown, integrate_attack_cooldown,
    applyGravity_attack_cooldown, jumpInput_attack_cooldown,
    moveInput_attack_cooldown]

/-- With no movement input, the normal path ends with zero horizontal
velocity. -/
lemma normalMove_velocity_x (p : Player) (k : Keys) (dt : ℚ) (hk : NoMoveKeys k) :
    (p.normalMove k dt).velocity_x = 0 := by
  unfold Player.normalMove
  simp only [tickAnimation_velocity_x, tickAttackCooldown_velocity_x,
    updateRect_velocity_x, clampX_velocity_x, groundCollision_velocity_x,
    integrate_velocity_x, applyGravity_velocity_x, jumpInput_velocity_x,
    moveInput_velocity_x p k hk]

/-- The dash path does not touch the dash timers, the dash flag or the
attack cooldown. -/
lemma dashMove_fields (p : Player) (dt : ℚ) :
    (p.dashMove dt).is_dashing = p.is_dashing ∧
    (p.dashMove dt).dash_cooldown = p.dash_cooldown ∧
    (p.dashMove dt).dash_time = p.dash_time ∧
    (p.dashMove dt).attack_cooldown = p.attack_cooldown :=
  ⟨rfl, rfl, rfl, rfl⟩

/-! ### Claim C6: the dash lifecycle -/

/-- State of a player c ms-equivalent after a dash was triggered (and
before the 1000 ms-equivalent cooldown has run out): the cooldown field
tracks 1000 - c, and either the dash is still running (c < 200) with
dash_time 200 - c, or it has ended with the horizontal velocity zeroed. -/
def DashInv (c : ℚ) (p : Player) : Prop :=
  p.dash_cooldown = 1000 - c ∧
  ((c < 200 ∧ p.is_dashing = true ∧ p.dash_time = 200 - c) ∨
   (200 ≤ c ∧ p.is_dashing = false ∧ p.velocity_x = 0))

lemma dashInv_step (p : Player) (k : Keys) (d c : ℚ)
    (hInv : DashInv c p) (hk : NoMoveKeys k) (hd : 0 ≤ d)
    (hlt : c + d * 1000 < 1000) :
    DashInv (c + d * 1000) (p.update k d) := by
  obtain ⟨hcool, hcase⟩ := hInv
  have hd1000 : 0 ≤ d * 1000 := by positivity
  have hcpos : 0 < p.dash_cooldown := by rw [hcool]; linarith
  have h1 := tickDashCooldown_pos p d hcpos
  rcases hcase with ⟨hlt200, hdash, htime⟩ | ⟨hge200, hnd, hvx⟩
  · by_cases hend : p.dash_time - d * 1000 ≤ 0
    · -- the dash ends on this update
      have hq : p.updateDashTimers d =
          { p with dash_cooldown := p.dash_cooldown - d * 1000,
                   dash_time := p.dash_time - d * 1000,
                   is_dashing := false, velocity_x := 0 } := by
        unfold Player.updateDashTimers
        rw [h1]
        exact tickDash_end _ d hdash hend
      have hqcool : (p.updateDashTimers d).dash_cooldown = 1000 - (c + d * 1000) := by
        rw [hq]; dsimp only; rw [hcool]; ring
      have hpos : 0 < (p.updateDashTimers d).dash_cooldown := by
        rw [hqcool]; linarith
      have hh := handleDashInput_of_cooldown_pos (p.updateDashTimers d) k hpos
      have hnd2 : ((p.updateDashTimers d).handleDashInput k).is_dashing = false := by
        rw [hh, hq]
      have hu := update_eq_normalMove p k d hnd2
      rw [hu, hh]
      refine ⟨?_, Or.inr ⟨?_, ?_, ?_⟩⟩
      · rw [normalMove_dash_cooldown, hqcool]
      · rw [htime] at hend; linarith
      · rw [normalMove_is_dashing, hq]
      · exact normalMove_velocity_x _ k d hk
    · -- the dash is still running
      have hq : p.updateDashTimers d =
          { p with dash_cooldown := p.dash_cooldown - d * 1000,
                   dash_time := p.dash_time - d * 1000 } := by
        unfold Player.updateDashTimers
        rw [h1]
        exact tickDash_cont _ d hdash hend
      have hdash2 : (p.updateDashTimers d).is_dashing = true := by rw [hq]; exact hdash
      have hh := handleDashInput_of_dashing (p.updateDashTimers d) k hdash2
      have hu := update_eq_dashMove p k d (by rw [hh]; exact hdash2)
      rw [hu, hh]
      refine ⟨?_, Or.inl ⟨?_, ?_, ?_⟩⟩
      · rw [(dashMove_fields _ _).2.1, hq]; dsimp only; rw [hcool]; ring
      · rw [htime] at hend; linarith
      · rw [(dashMove_fields _ _).1]; exact hdash2
      · rw [(dashMove_fields _ _).2.2.1, hq]; dsimp only; rw [htime]; ring
  · -- the dash already ended before this update
    have hq : p.updateDashTimers d =
        { p with dash_cooldown := p.dash_cooldown - d * 1000 } := by
      unfold Player.updateDashTimers
      rw [h1]
      exact tickDash_not _ d hnd
    have hqcool : (p.updateDashTimers d).dash_cooldown = 1000 - (c + d * 1000) := by
      rw [hq]; dsimp only; rw [hcool]; ring
    have hpos : 0 < (p.updateDashTimers d).dash_cooldown := by
      rw [hqcool]; linarith
    have hh := handleDashInput_of_cooldown_pos (p.updateDashTimers d) k hpos
    have hnd2 : ((p.updateDashTimers d).handleDashInput k).is_dashing = false := by
      rw [hh, hq]; dsimp only; exact hnd
    have hu := update_eq_normalMove p k d hnd2
    rw [hu, hh]
    refine ⟨?_, Or.inr ⟨by linarith, ?_, ?_⟩⟩
    · rw [normalMove_dash_cooldown, hqcool]
    · rw [normalMove_is_dashing, hq]; dsimp only; exact hnd
    · exact normalMove_velocity_x _ k d hk

lemma updateSeq_cons (p : Player) (kd : Keys × ℚ) (l : List (Keys × ℚ)) :
    p.updateSeq (kd :: l) = (p.update kd.1 kd.2).updateSeq l := rfl

lemma elapsedMs_cons (kd : Keys × ℚ) (l : List (Keys × ℚ)) :
    elapsedMs (kd :: l) = kd.2 * 1000 + elapsedMs l := by
  simp [elapsedMs, add_mul]

lemma elapsedMs_nonneg (l : List (Keys × ℚ)) (h : ∀ kd ∈ l, 0 ≤ kd.2) :
    0 ≤ elapsedMs l := by
  unfold elapsedMs
  apply mul_nonneg _ (by norm_num)
  apply List.sum_nonneg
  intro x hx
  obtain ⟨kd, hkd, rfl⟩ := List.mem_map.mp hx
  exact h kd hkd

lemma dashInv_seq (l : List (Keys × ℚ)) : ∀ (p : Player) (c : ℚ),
    DashInv c p → (∀ kd ∈ l, NoMoveKeys kd.1 ∧ 0 ≤ kd.2) →
    c + elapsedMs l < 1000 →
    DashInv (c + elapsedMs l) (p.updateSeq l) := by
  induction l with
  | nil =>
    intro p c h _ _
    simpa [Player.updateSeq, elapsedMs] using h
  | cons kd l ih =>
    intro p c h hall hlt
    have hnn : 0 ≤ elapsedMs l :=
      elapsedMs_nonneg l fun x hx => (hall x (List.mem_cons_of_mem _ hx)).2
    have hd0 : 0 ≤ kd.2 := (hall kd (List.mem_cons_self _ _)).2
    rw [elapsedMs_cons] at hlt ⊢
    have hstep := dashInv_step p kd.1 kd.2 c h (hall kd (List.mem_cons_self _ _)).1
      hd0 (by linarith)
    have hrest := ih (p.update kd.1 kd.2) (c + kd.2 * 1000) hstep
      (fun x hx => hall x (List.mem_cons_of_mem _ hx)) (by linarith)
    rw [updateSeq_cons, ← add_assoc]
    exact hrest

/-- C6: if a dash is triggered (dash key held, cooldown ≤ 0, not already
dashing), then across any subsequent movement-input-free updates totalling
less than the 1000 ms-equivalent dash cooldown: is_dashing stays true while
the elapsed ms-equivalent is below 200, is false with horizontal velocity
zeroed once 200 or more has elapsed, and the dash cooldown reads
1000 - elapsed, so any dash attempt in that window (the dash keys may be
held on any of these frames) fails to start a new dash. -/
theorem C6_dash_lifecycle (p : Player) (k₀ : Keys) (d₀ : ℚ)
    (hcool : p.dash_cooldown ≤ 0) (hnd : p.is_dashing = false)
    (hshift : k₀.lshift = true ∨ k₀.rshift = true)
    (l : List (Keys × ℚ))
    (hall : ∀ kd ∈ l, NoMoveKeys kd.1 ∧ 0 ≤ kd.2)
    (hlt : elapsedMs l < 1000) :
    ((p.update k₀ d₀).updateSeq l).dash_cooldown = 1000 - elapsedMs l ∧
    (elapsedMs l < 200 → ((p.update k₀ d₀).updateSeq l).is_dashing = true) ∧
    (200 ≤ elapsedMs l →
      ((p.update k₀ d₀).updateSeq l).is_dashing = false ∧
      ((p.update k₀ d₀).updateSeq l).velocity_x = 0) := by
  have ht : p.updateDashTimers d₀ = p := by
    unfold Player.updateDashTimers
    rw [tickDashCooldown_nonpos p d₀ (not_lt.mpr hcool), tickDash_not p d₀ hnd]
  have hh : (p.updateDashTimers d₀).handleDashInput k₀ = p.start_dash := by
    rw [ht]; exact handleDashInput_start p k₀ hshift hcool hnd
  have hu : p.update k₀ d₀ = p.start_dash.dashMove d₀ := by
    rw [update_eq_dashMove p k₀ d₀ (by rw [hh]; rfl), hh]
  have h0 : DashInv 0 (p.update k₀ d₀) := by
    rw [hu]
    refine ⟨?_, Or.inl ⟨by norm_num, ?_, ?_⟩⟩
    · rw [(dashMove_fields _ _).2.1]
      show (1000 : ℚ) = 1000 - 0
      ring
    · rw [(dashMove_fields _ _).1]; rfl
    · rw [(dashMove_fields _ _).2.2.1]
      show (200 : ℚ) = 200 - 0
      ring
  have hmain := dashInv_seq l (p.update k₀ d₀) 0 h0 hall (by linarith)
  rw [zero_add] at hmain
  obtain ⟨hcoole, hcase⟩ := hmain
  refine ⟨hcoole, ?_, ?_⟩
  · intro h200
    rcases hcase with ⟨_, h, _⟩ | ⟨h, _, _⟩
    · exact h
    · linarith
  · intro h200
    rcases hcase with ⟨h, _, _⟩ | ⟨_, h1, h2⟩
    · linarith
    · exact ⟨h1, h2⟩

/-- C6 witness: the lifecycle evaluated 100 ms-equivalent after a concrete
dash trigger — still dashing and the cooldown reads 900. -/
theorem C6_dash_lifecycle_witness :
    (((Player.init (WINDOW_WIDTH / 2) PLAYER_GROUND_Y).update dashKeys
        (1/10)).updateSeq [(noKeys, 1/10)]).is_dashing = true ∧
    (((Player.init (WINDOW_WIDTH / 2) PLAYER_GROUND_Y).update dashKeys
        (1/10)).updateSeq [(noKeys, 1/10)]).dash_cooldown = 900 := by
  have h := C6_dash_lifecycle (Player.init (WINDOW_WIDTH / 2) PLAYER_GROUND_Y)
    dashKeys (1/10) (by norm_num [Player.init]) rfl (Or.inl rfl)
    [(noKeys, 1/10)]
    (by
      intro kd hkd
      rw [List.mem_singleton] at hkd
      subst hkd
      exact ⟨⟨rfl, rfl, rfl, rfl⟩, by norm_num⟩)
    (by norm_num [elapsedMs])
  refine ⟨h.2.1 (by norm_num [elapsedMs]), ?_⟩
  rw [h.1]
  norm_num [elapsedMs]

/-! ### Claim C8: the attack cooldown gate -/

lemma tickDashCooldown_is_dashing (p : Player) (dt : ℚ) :
    (p.tickDashCooldown dt).is_dashing = p.is_dashing := by
  unfold Player.tickDashCooldown; split <;> rfl

lemma tickDashCooldown_dash_time (p : Player) (dt : ℚ) :
    (p.tickDashCooldown dt).dash_time = p.dash_time := by
  unfold Player.tickDashCooldown; split <;> rfl

lemma tickDashCooldown_attack_cooldown (p : Player) (dt : ℚ) :
    (p.tickDashCooldown dt).attack_cooldown = p.attack_cooldown := by
  unfold Player.tickDashCooldown; split <;> rfl

lemma tickDash_attack_cooldown (p : Player) (dt : ℚ) :
    (p.tickDash dt).attack_cooldown = p.attack_cooldown := by
  unfold Player.tickDash; dsimp only; repeat' split
  all_goals rfl

lemma handleDashInput_attack_cooldown (p : Player) (k : Keys) :
    (p.handleDashInput k).attack_cooldown = p.attack_cooldown := by
  unfold Player.handleDashInput Player.start_dash; split <;> rfl

lemma handleDashInput_no_shift (p : Player) (k : Keys)
    (hsh : k.lshift = false ∧ k.rshift = false) : p.handleDashInput k = p := by
  unfold Player.handleDashInput
  simp [hsh.1, hsh.2]

/-- A frame that is not dashing and gets no dash input: the dash flag stays
off and the attack cooldown ticks normally. -/
lemma update_no_dash (p : Player) (k : Keys) (d : ℚ)
    (hnd : p.is_dashing = false) (hsh : k.lshift = false ∧ k.rshift = false) :
    (p.update k d).is_dashing = false ∧
    (p.update k d).attack_cooldown =
      (if p.attack_cooldown > 0 then p.attack_cooldown - d * 1000
       else p.attack_cooldown) := by
  have hq1 : (p.tickDashCooldown d).is_dashing = false := by
    rw [tickDashCooldown_is_dashing]; exact hnd
  have ht : p.updateDashTimers d = p.tickDashCooldown d := by
    unfold Player.updateDashTimers; exact tickDash_not _ d hq1
  have hh : (p.updateDashTimers d).handleDashInput k = p.updateDashTimers d :=
    handleDashInput_no_shift _ k hsh
  have hu := update_eq_normalMove p k d (by rw [hh, ht]; exact hq1)
  rw [hu, hh, ht]
  exact ⟨by rw [normalMove_is_dashing]; exact hq1,
    by rw [normalMove_attack_cooldown, tickDashCooldown_attack_cooldown]⟩

/-- A frame that triggers a dash: the dash state is armed, the dash path
runs, and (the dash path returning early) the attack cooldown is not
decremented. -/
lemma update_dash_trigger (p : Player) (k : Keys) (d : ℚ)
    (hnd : p.is_dashing = false) (hcool : p.dash_cooldown ≤ 0)
    (hshift : k.lshift = true ∨ k.rshift = true) :
    (p.update k d).is_dashing = true ∧
    (p.update k d).dash_time = 200 ∧
    (p.update k d).dash_cooldown = 1000 ∧
    (p.update k d).attack_cooldown = p.attack_cooldown := by
  have ht : p.updateDashTimers d = p := by
    unfold Player.updateDashTimers
    rw [tickDashCooldown_nonpos p d (not_lt.mpr hcool), tickDash_not p d hnd]
  have hh : (p.updateDashTimers d).handleDashInput k = p.start_dash := by
    rw [ht]; exact handleDashInput_start p k hshift hcool hnd
  have hu : p.update k d = p.start_dash.dashMove d := by
    rw [update_eq_dashMove p k d (by rw [hh]; rfl), hh]
  rw [hu]
  exact ⟨by rw [(dashMove_fields _ _).1]; rfl,
    by rw [(dashMove_fields _ _).2.2.1]; rfl,
    by rw [(dashMove_fields _ _).2.1]; rfl,
    by rw [(dashMove_fields _ _).2.2.2]; rfl⟩

/-- A frame on which the running dash expires: the dash flag is cleared at
the top of the update and the normal path then ticks the attack cooldown. -/
lemma update_dash_end (p : Player) (k : Keys) (d : ℚ)
    (hdash : p.is_dashing = true) (hend : p.dash_time - d * 1000 ≤ 0)
    (hsh : k.lshift = false ∧ k.rshift = false) :
    (p.update k d).is_dashing = false ∧
    (p.update k d).attack_cooldown =
      (if p.attack_cooldown > 0 then p.attack_cooldown - d * 1000
       else p.attack_cooldown) := by
  have hq1d : (p.tickDashCooldown d).is_dashing = true := by
    rw [tickDashCooldown_is_dashing]; exact hdash
  have hq1t : (p.tickDashCooldown d).dash_time - d * 1000 ≤ 0 := by
    rw [tickDashCooldown_dash_time]; exact hend
  have ht : p.updateDashTimers d =
      Player.tickDash (p.tickDashCooldown d) d := rfl
  have htd := tickDash_end (p.tickDashCooldown d) d hq1d hq1t
  have hnd2 : (p.updateDashTimers d).is_dashing = false := by
    rw [ht, htd]
  have hh : (p.updateDashTimers d).handleDashInput k = p.updateDashTimers d :=
    handleDashInput_no_shift _ k hsh
  have hu := update_eq_normalMove p k d (by rw [hh]; exact hnd2)
  rw [hu, hh]
  refine ⟨by rw [normalMove_is_dashing]; exact hnd2, ?_⟩
  rw [normalMove_attack_cooldown, ht, htd]
  dsimp only
  rw [tickDashCooldown_attack_cooldown]

/-- Any single update decrements the attack cooldown by at most dt·1000. -/
lemma update_attack_cooldown_ge (p : Player) (k : Keys) (d : ℚ) (hd : 0 ≤ d) :
    p.attack_cooldown - d * 1000 ≤ (p.update k d).attack_cooldown := by
  have hq : ((p.updateDashTimers d).handleDashInput k).attack_cooldown =
      p.attack_cooldown := by
    rw [handleDashInput_attack_cooldown]
    show (Player.tickDash (p.tickDashCooldown d) d).attack_cooldown = _
    rw [tickDash_attack_cooldown, tickDashCooldown_attack_cooldown]
  have hd1000 : 0 ≤ d * 1000 := by positivity
  by_cases hdash : ((p.updateDashTimers d).handleDashInput k).is_dashing = true
  · rw [update_eq_dashMove p k d hdash, (dashMove_fields _ _).2.2.2, hq]
    linarith
  · have hf : ((p.updateDashTimers d).handleDashInput k).is_dashing = false := by
      revert hdash
      cases ((p.updateDashTimers d).handleDashInput k).is_dashing <;> simp
    rw [update_eq_normalMove p k d hf, normalMove_attack_cooldown, hq]
    split
    · linarith
    · linarith

/-- Over any update sequence, the attack cooldown falls by at most the
elapsed ms-equivalent. -/
lemma updateSeq_attack_cooldown_ge (l : List (Keys × ℚ)) : ∀ p : Player,
    (∀ kd ∈ l, 0 ≤ kd.2) →
    p.attack_cooldown - elapsedMs l ≤ (p.updateSeq l).attack_cooldown := by
  induction l with
  | nil =>
    intro p _
    simp [Player.updateSeq, elapsedMs]
  | cons kd l ih =>
    intro p hall
    rw [updateSeq_cons, elapsedMs_cons]
    have h1 := update_attack_cooldown_ge p kd.1 kd.2 (hall kd (List.mem_cons_self _ _))
    have h2 := ih (p.update kd.1 kd.2) (fun x hx => hall x (List.mem_cons_of_mem _ hx))
    linarith

/-- Over dash-free update frames the attack cooldown either has already
reached 0 or tracks its start value minus the elapsed ms-equivalent. -/
lemma updateSeq_noDash_cooldown (l : List (Keys × ℚ)) : ∀ (p : Player) (b : ℚ),
    p.is_dashing = false →
    (∀ kd ∈ l, kd.1.lshift = false ∧ kd.1.rshift = false ∧ 0 ≤ kd.2) →
    p.attack_cooldown ≤ 0 ∨ p.attack_cooldown = b →
    (p.updateSeq l).is_dashing = false ∧
    ((p.updateSeq l).attack_cooldown ≤ 0 ∨
      (p.updateSeq l).attack_cooldown = b - elapsedMs l) := by
  induction l with
  | nil =>
    intro p b hnd _ hc
    simp only [Player.updateSeq, List.foldl_nil]
    refine ⟨hnd, ?_⟩
    rcases hc with h | h
    · exact Or.inl h
    · refine Or.inr ?_
      rw [h]
      simp [elapsedMs]
  | cons kd l ih =>
    intro p b hnd hall hc
    obtain ⟨hs1, hs2, hd⟩ := hall kd (List.mem_cons_self _ _)
    have hstep := update_no_dash p kd.1 kd.2 hnd ⟨hs1, hs2⟩
    have hc' : (p.update kd.1 kd.2).attack_cooldown ≤ 0 ∨
        (p.update kd.1 kd.2).attack_cooldown = b - kd.2 * 1000 := by
      rcases hc with h | h
      · left
        rw [hstep.2, if_neg (by linarith)]
        exact h
      · by_cases hpos : p.attack_cooldown > 0
        · right
          rw [hstep.2, if_pos hpos, h]
        · left
          rw [hstep.2, if_neg hpos]
          linarith [not_lt.mp hpos]
    have hrest := ih (p.update kd.1 kd.2) (b - kd.2 * 1000) hstep.1
      (fun x hx => hall x (List.mem_cons_of_mem _ hx)) hc'
    rw [updateSeq_cons, elapsedMs_cons]
    refine ⟨hrest.1, ?_⟩
    rcases hrest.2 with h | h
    · exact Or.inl h
    · right
      rw [h]
      ring

/-- C8 (amended): attempt_attack succeeds exactly when the cooldown is
≤ 0, resetting it to 800; otherwise it fails with no state change. Two
calls separated by less than 800 ms-equivalent of elapsed update time give
success then failure (for arbitrary inputs in between); two calls
separated by ≥ 800 ms-equivalent both succeed provided no dash runs during
the separating updates — a frame on the dash early-return path does not
decrement the attack cooldown, so dashing can defer the second success. -/
theorem C8_attack_cooldown_gate :
    (∀ p : Player,
      (p.attack_cooldown ≤ 0 →
        p.attack = (true, { p with attack_cooldown := ATTACK_COOLDOWN })) ∧
      (0 < p.attack_cooldown → p.attack = (false, p))) ∧
    (∀ (p : Player) (l : List (Keys × ℚ)), p.attack_cooldown ≤ 0 →
      (∀ kd ∈ l, 0 ≤ kd.2) → elapsedMs l < 800 →
      p.attack.1 = true ∧ ((p.attack.2.updateSeq l).attack).1 = false) ∧
    (∀ (p : Player) (l : List (Keys × ℚ)), p.attack_cooldown ≤ 0 →
      p.is_dashing = false →
      (∀ kd ∈ l, kd.1.lshift = false ∧ kd.1.rshift = false ∧ 0 ≤ kd.2) →
      800 ≤ elapsedMs l →
      p.attack.1 = true ∧ ((p.attack.2.updateSeq l).attack).1 = true) := by
  refine ⟨fun p => ⟨fun h => attack_of_ready p h,
    fun h => attack_of_cooldown p (not_le.mpr h)⟩, ?_, ?_⟩
  · intro p l hcd hnn hlt
    rw [attack_of_ready p hcd]
    refine ⟨rfl, ?_⟩
    have hge := updateSeq_attack_cooldown_ge l { p with attack_cooldown := ATTACK_COOLDOWN } hnn
    have hc8 : ({ p with attack_cooldown := ATTACK_COOLDOWN } : Player).attack_cooldown
        = 800 := rfl
    rw [hc8] at hge
    rw [attack_of_cooldown _ (by dsimp only; linarith)]
  · intro p l hcd hnd hall hge
    rw [attack_of_ready p hcd]
    refine ⟨rfl, ?_⟩
    have hrest := updateSeq_noDash_cooldown l { p with attack_cooldown := ATTACK_COOLDOWN }
      800 (by dsimp only; exact hnd) hall (Or.inr rfl)
    have hfin : (Player.updateSeq { p with attack_cooldown := ATTACK_COOLDOWN } l).attack_cooldown ≤ 0 := by
      rcases hrest.2 with h | h
      · exact h
      · rw [h]; linarith
    rw [attack_of_ready _ hfin]

/-- C8 counterexample input: a dash-trigger frame followed by three plain
frames, 800 ms-equivalent in total. -/
def cexSeq : List (Keys × ℚ) :=
  [(dashKeys, 1/5), (noKeys, 1/5), (noKeys, 1/5), (noKeys, 1/5)]

lemma updateSeq_cexSeq (p : Player) :
    p.updateSeq cexSeq =
      (((p.update dashKeys (1/5)).update noKeys (1/5)).update noKeys
        (1/5)).update noKeys (1/5) := by
  simp only [cexSeq, Player.updateSeq, List.foldl_cons, List.foldl_nil]

/-- C8 counterexample: from a fresh player, attack succeeds, then 800
ms-equivalent of elapsed update time passes — but one frame dashes, so the
claimed second success fails. -/
theorem C8_counterexample :
    ((Player.init (WINDOW_WIDTH / 2) PLAYER_GROUND_Y).attack).1 = true ∧
    elapsedMs cexSeq = 800 ∧
    (((((Player.init (WINDOW_WIDTH / 2) PLAYER_GROUND_Y).attack).2.updateSeq
        cexSeq).attack).1 = false) := by
  have hp0cd : (Player.init (WINDOW_WIDTH / 2) PLAYER_GROUND_Y).attack_cooldown ≤ 0 := by
    norm_num [Player.init]
  have hatk := attack_of_ready _ hp0cd
  refine ⟨by rw [hatk], by norm_num [cexSeq, elapsedMs], ?_⟩
  rw [hatk]
  set p1 : Player := { Player.init (WINDOW_WIDTH / 2) PLAYER_GROUND_Y with
    attack_cooldown := ATTACK_COOLDOWN } with hp1
  have hseq := updateSeq_cexSeq p1
  have h1 := update_dash_trigger p1 dashKeys (1/5) rfl (by norm_num [p1, Player.init])
    (Or.inl rfl)
  set q1 := p1.update dashKeys (1/5) with hq1
  have hq1cd : q1.attack_cooldown = 800 := by rw [h1.2.2.2]; rfl
  have h2 := update_dash_end q1 noKeys (1/5) h1.1 (by rw [h1.2.1]; norm_num) ⟨rfl, rfl⟩
  set q2 := q1.update noKeys (1/5) with hq2
  have hq2cd : q2.attack_cooldown = 600 := by
    rw [h2.2, hq1cd]
    norm_num
  have h3 := update_no_dash q2 noKeys (1/5) h2.1 ⟨rfl, rfl⟩
  set q3 := q2.update noKeys (1/5) with hq3
  have hq3cd : q3.attack_cooldown = 400 := by
    rw [h3.2, hq2cd]
    norm_num
  have h4 := update_no_dash q3 noKeys (1/5) h3.1 ⟨rfl, rfl⟩
  set q4 := q3.update noKeys (1/5) with hq4
  have hq4cd : q4.attack_cooldown = 200 := by
    rw [h4.2, hq3cd]
    norm_num
  rw [hseq]
  rw [attack_of_cooldown q4 (by rw [hq4cd]; norm_num)]

/-- C8 witness: the amended gate at concrete inputs — 200 ms-equivalent of
dash-free updates gives success then failure, 1000 ms-equivalent gives two
successes. -/
theorem C8_attack_cooldown_gate_witness :
    (((Player.init (WINDOW_WIDTH / 2) PLAYER_GROUND_Y).attack).1 = true ∧
      (((Player.init (WINDOW_WIDTH / 2) PLAYER_GROUND_Y).attack).2.updateSeq
        [(noKeys, 1/5)]).attack.1 = false) ∧
    (((Player.init (WINDOW_WIDTH / 2) PLAYER_GROUND_Y).attack).1 = true ∧
      (((Player.init (WINDOW_WIDTH / 2) PLAYER_GROUND_Y).attack).2.updateSeq
        [(noKeys, 1)]).attack.1 = true) := by
  constructor
  · exact C8_attack_cooldown_gate.2.1 (Player.init (WINDOW_WIDTH / 2) PLAYER_GROUND_Y)
      [(noKeys, 1/5)] (by norm_num [Player.init])
      (by
        intro kd hkd
        rw [List.mem_singleton] at hkd
        subst hkd
        norm_num)
      (by norm_num [elapsedMs])
  · exact C8_attack_cooldown_gate.2.2 (Player.init (WINDOW_WIDTH / 2) PLAYER_GROUND_Y)
      [(noKeys, 1)] (by norm_num [Player.init]) rfl
      (by
        intro kd hkd
        rw [List.mem_singleton] at hkd
        subst hkd
        exact ⟨rfl, rfl, by norm_num⟩)
      (by norm_num [elapsedMs])

/-! ### Claim C4: the periodic spawn timer and the kill replacement spawn -/

lemma spawnSeq_cons (s : Scene) (d : ℚ) (dts : List ℚ) :
    s.spawnSeq (d :: dts) = (s.spawnPhase d).spawnSeq dts := rfl

lemma spawnPhase_no_trigger (s : Scene) (dt : ℚ)
    (h : ¬s.spawn_timer + dt * 10 > s.spawn_interval) :
    s.spawnPhase dt = { s with spawn_timer := s.spawn_timer + dt * 10 } := by
  unfold Scene.spawnPhase
  dsimp only
  rw [if_neg h]

lemma spawnPhase_trigger (s : Scene) (dt : ℚ)
    (h : s.spawn_timer + dt * 10 > s.spawn_interval) :
    (s.spawnPhase dt).maintainCalls = s.maintainCalls + 1 := by
  unfold Scene.spawnPhase Scene.maintain_enemies Scene.spawn_single_enemy
  dsimp only
  rw [if_pos h]
  split <;> rfl

lemma spawnPhase_maintainCalls_ge (s : Scene) (dt : ℚ) :
    s.maintainCalls ≤ (s.spawnPhase dt).maintainCalls := by
  by_cases h : s.spawn_timer + dt * 10 > s.spawn_interval
  · rw [spawnPhase_trigger s dt h]
    omega
  · rw [spawnPhase_no_trigger s dt h]

lemma spawnSeq_maintainCalls_ge (dts : List ℚ) : ∀ s : Scene,
    s.maintainCalls ≤ (s.spawnSeq dts).maintainCalls := by
  induction dts with
  | nil => intro s; exact le_refl _
  | cons d dts ih =>
    intro s
    rw [spawnSeq_cons]
    exact le_trans (spawnPhase_maintainCalls_ge s d) (ih (s.spawnPhase d))

/-- Over a run of frames starting below the threshold and with interval
2000, no maintain call happens exactly while the accumulated dt·10 stays
within the threshold. -/
lemma spawnSeq_no_maintain_iff (dts : List ℚ) : ∀ s : Scene,
    (∀ d ∈ dts, 0 ≤ d) → s.spawn_interval = 2000 → s.spawn_timer ≤ 2000 →
    ((s.spawnSeq dts).maintainCalls = s.maintainCalls ↔
      s.spawn_timer + dts.sum * 10 ≤ 2000) := by
  induction dts with
  | nil =>
    intro s _ _ h2000
    simp only [Scene.spawnSeq, List.foldl_nil, List.sum_nil]
    constructor
    · intro _
      linarith
    · intro _
      simp
  | cons d dts ih =>
    intro s hnn hint h2000
    have hd : 0 ≤ d := hnn d (List.mem_cons_self _ _)
    have hsum : 0 ≤ dts.sum :=
      List.sum_nonneg fun x hx => hnn x (List.mem_cons_of_mem _ hx)
    rw [spawnSeq_cons, List.sum_cons]
    by_cases htr : s.spawn_timer + d * 10 > s.spawn_interval
    · constructor
      · intro hEq
        exfalso
        have hmono := spawnSeq_maintainCalls_ge dts (s.spawnPhase d)
        have h1 := spawnPhase_trigger s d htr
        omega
      · intro hle
        exfalso
        rw [hint] at htr
        nlinarith
    · rw [spawnPhase_no_trigger s d htr]
      have h2 := ih { s with spawn_timer := s.spawn_timer + d * 10 }
        (fun x hx => hnn x (List.mem_cons_of_mem _ hx))
        (by dsimp only; exact hint)
        (by dsimp only; rw [hint] at htr; linarith [not_lt.mp htr])
      dsimp only at h2
      rw [h2]
      constructor <;> intro h <;> nlinarith

/-- C4 counterexample: two frames of dt = 1 make 2000 ms-equivalent of
elapsed game time pass, yet (starting from the initial scene, spawn timer
0, interval 2000) the periodic timer does not invoke maintain: the
accumulator gained only dt·10 = 20. -/
theorem C4_counterexample :
    ((1 : ℚ) + 1) * 1000 = 2000 ∧
    scene0.maintainCalls = 0 ∧
    (scene0.spawnSeq [1, 1]).maintainCalls = 0 := by
  refine ⟨by norm_num, rfl, ?_⟩
  have h1 := spawnPhase_no_trigger scene0 1 (by norm_num [scene0])
  rw [spawnSeq_cons, h1]
  have h2 := spawnPhase_no_trigger { scene0 with spawn_timer := scene0.spawn_timer + 1 * 10 } 1
    (by norm_num [scene0])
  rw [spawnSeq_cons, h2]
  rfl

/-- C4 (amended): starting a run with spawn timer 0 and interval 2000, the
periodic timer leaves maintain uninvoked exactly while the accumulated
dt·10 over the run stays at or below 2000 — i.e. maintain fires only once
more than 200 frame-units (200000 ms-equivalent, about 3.3 real seconds at
60 FPS) of game time have accumulated, not every 2000 ms-equivalent; and a
replacement spawn is requested immediately on every kill. -/
theorem C4_spawn_policy :
    (∀ (s : Scene) (dts : List ℚ), s.spawn_interval = 2000 → s.spawn_timer = 0 →
      (∀ d ∈ dts, 0 ≤ d) →
      ((s.spawnSeq dts).maintainCalls = s.maintainCalls ↔ dts.sum * 10 ≤ 2000)) ∧
    (∀ (s : Scene) (keys : Keys), keys.space = true ∨ keys.xkey = true →
      s.player.attack_cooldown ≤ 0 → (∀ e ∈ s.enemies, e.health = 1) →
      (∃ e ∈ s.enemies, hitCond (s.player.get_attack_rect) e = true) →
      (s.attackPhase keys).spawnRequests = s.spawnRequests + 1) := by
  constructor
  · intro s dts hint h0 hnn
    have h := spawnSeq_no_maintain_iff dts s hnn hint (by rw [h0]; norm_num)
    rw [h0, zero_add] at h
    exact h
  · intro s keys hkey hcd hall hex
    obtain ⟨k, e, hk, hhit, hfirst⟩ :=
      exists_first_hit (s.player.get_attack_rect) s.enemies hex
    have he1 : e.health = 1 := hall e (List.getElem?_mem hk)
    obtain ⟨_, hdead⟩ := take_damage_one_dead e he1
    rw [attackPhase_of_kill s keys hkey hcd k e hk hhit hfirst hdead]
    exact (killEffects_proj _ _).2.2.2.2.2.1

/-- C4 witness: the timer part evaluated on the initial scene — 20 units
accumulated leave maintain uninvoked, 3000 invoke it — and the kill part
on the concrete two-enemy scene. -/
theorem C4_spawn_policy_witness :
    (scene0.spawnSeq [1, 1]).maintainCalls = scene0.maintainCalls ∧
    ¬(scene0.spawnSeq [300]).maintainCalls = scene0.maintainCalls ∧
    (sceneTwoOverlap.attackPhase attackKeys).spawnRequests =
      sceneTwoOverlap.spawnRequests + 1 := by
  have hhit : hitCond sceneTwoOverlap.player.get_attack_rect
      (Enemy.init 608 622 1) = true := by
    norm_num [hitCond, collideRect, Enemy.init, Enemy.is_alive,
      Player.get_attack_rect, Player.init, sceneTwoOverlap, scene0, pyInt,
      WINDOW_WIDTH, WINDOW_HEIGHT, PLAYER_WIDTH, PLAYER_HEIGHT, PLAYER_GROUND_Y,
      ENEMY_WIDTH, ENEMY_HEIGHT, ATTACK_RANGE]
  refine ⟨?_, ?_, ?_⟩
  · exact (C4_spawn_policy.1 scene0 [1, 1] rfl rfl
      (by intro d hd; rcases List.mem_pair.mp hd with rfl | rfl <;> norm_num)).mpr
      (by norm_num)
  · intro hEq
    have h := (C4_spawn_policy.1 scene0 [300] rfl rfl
      (by intro d hd; rw [List.mem_singleton] at hd; subst hd; norm_num)).mp hEq
    norm_num at h
  · exact C4_spawn_policy.2 sceneTwoOverlap attackKeys (Or.inl rfl)
      (by norm_num [sceneTwoOverlap, scene0, Player.init])
      (by intro e he; rcases List.mem_pair.mp he with rfl | rfl <;> rfl)
      ⟨Enemy.init 608 622 1, by simp [sceneTwoOverlap], hhit⟩

end Nightblade
